import Mathlib

/-!
Verification of the VIDDYAI (VidyaSetu AI) client against its specification.

The repository is a React/TypeScript front end (src/app/App.tsx, the zustand
store useAppStore, and src/api/client.ts) backed by a FastAPI service.  The
definitions below are a shallow embedding of the client-side logic: the zustand
store actions (each modelled as a pure function `AppState → AppState`, since a
zustand `set` with a partial object merges into the previous state), the SSE
chat-stream message handler of `ChatScreen.handleSend`, the guards of
`handleSend`, `GameScreen.handleAnswer` and `UploadScreen.handleFileUpload`.
The backend staged pipeline (routers/chat.py, core/agents.py) is not present in
the sources, so it is modelled from the spec where a claim needs it.
-/

/-- The `Subject` union type of src/store/useAppStore.ts. -/
inductive Subject where
  | math
  | science
  | english
  | hindi
  | gk
  deriving DecidableEq, Repr

/-- The theme field of the store: the union `'dark' | 'light'`. -/
inductive Theme where
  | dark
  | light
  deriving DecidableEq, Repr

/-- The screen union `'welcome' | 'game' | 'upload' | 'chat'`. -/
inductive Screen where
  | welcome
  | game
  | upload
  | chat
  deriving DecidableEq, Repr

/-- The message role union `'user' | 'ai'`. -/
inductive Role where
  | user
  | ai
  deriving DecidableEq, Repr

/-- `StudentProfile` of src/store/useAppStore.ts.  `Record<string, number>`
score maps are embedded as association lists; `number` fields as `Int`. -/
structure StudentProfile where
  student_id : String
  name : String
  grade : Int
  subject : Subject
  iq_scores : List (String × Int)
  eq_scores : List (String × Int)
  learning_style : String
  xp : Int
  textbook_id : Option String
  deriving DecidableEq, Repr

/-- One agent step record, as accumulated by the chat stream handler
(`{agent: string; action: string}`). -/
structure AgentStep where
  agent : String
  action : String
  deriving DecidableEq, Repr

/-- `ChatMessage` of src/store/useAppStore.ts.  Optional fields are `Option`. -/
structure ChatMessage where
  id : String
  role : Role
  content : String
  timestamp : String
  thoughtExpanded : Option Bool
  agentSteps : Option (List AgentStep)
  safety_verified : Option Bool
  deriving DecidableEq, Repr

/-- The zustand store state of `useAppStore` (the action closures are modelled
as the separate functions below). -/
structure AppState where
  student : Option StudentProfile
  messages : List ChatMessage
  isLoading : Bool
  currentScreen : Screen
  isUploading : Bool
  uploadProgress : Int
  theme : Theme
  deriving DecidableEq, Repr

/-- Store action `setStudent: (student) => set({ student })`. -/
def setStudent (p : StudentProfile) (s : AppState) : AppState :=
  { s with student := some p }

/-- Store action `addMessage`: appends the message to `state.messages`. -/
def addMessage (m : ChatMessage) (s : AppState) : AppState :=
  { s with messages := s.messages ++ [m] }

/-- Store action `clearMessages: () => set({ messages: [] })`. -/
def clearMessages (s : AppState) : AppState :=
  { s with messages := [] }

/-- Store action `toggleThought`: maps over the messages, replacing a message
whose id matches with a copy whose `thoughtExpanded` is negated (JavaScript
`!undefined` is `true`, hence the `getD false`). -/
def toggleThought (messageId : String) (s : AppState) : AppState :=
  { s with
    messages := s.messages.map fun msg =>
      if msg.id = messageId then
        { msg with thoughtExpanded := some (!(msg.thoughtExpanded.getD false)) }
      else msg }

/-- Store action `setIsLoading`. -/
def setIsLoading (loading : Bool) (s : AppState) : AppState :=
  { s with isLoading := loading }

/-- Store action `setCurrentScreen`. -/
def setCurrentScreen (screen : Screen) (s : AppState) : AppState :=
  { s with currentScreen := screen }

/-- Store action `setIsUploading`. -/
def setIsUploading (uploading : Bool) (s : AppState) : AppState :=
  { s with isUploading := uploading }

/-- Store action `setUploadProgress`: accepts a value or an updater function
(`typeof progress === 'function' ? progress(state.uploadProgress) : progress`). -/
def setUploadProgress (progress : Int ⊕ (Int → Int)) (s : AppState) : AppState :=
  { s with uploadProgress :=
      match progress with
      | .inl v => v
      | .inr f => f s.uploadProgress }

/-- Store action `addXp`: adds `amount` to `student.xp` when a student is
logged in, otherwise keeps `student` as `null`. -/
def addXp (amount : Int) (s : AppState) : AppState :=
  { s with student :=
      match s.student with
      | some st => some { st with xp := st.xp + amount }
      | none => none }

/-- Store action `toggleTheme`: `state.theme === 'dark' ? 'light' : 'dark'`
(the accompanying DOM class updates are browser side effects outside the
store state). -/
def toggleTheme (s : AppState) : AppState :=
  { s with theme :=
      match s.theme with
      | .dark => .light
      | .light => .dark }

/-- Store action `reset`: restores the initial values of the listed fields
(the theme field is not listed in the reset object and is kept). -/
def reset (s : AppState) : AppState :=
  { s with
    student := none
    messages := []
    isLoading := false
    currentScreen := .welcome
    isUploading := false
    uploadProgress := 0 }

/-- The parsed JSON payload of one SSE message, mirroring the fields the
handler in `ChatScreen.handleSend` reads (`data.agent`, `data.status`,
`data.text`, `data.final`, `data.query_id`, `data.safety_verified`).  A field
absent from the JSON object is `none`. -/
structure EventData where
  agent : Option String
  status : Option String
  text : Option String
  final : Option String
  query_id : Option String
  safety_verified : Option Bool
  deriving DecidableEq, Repr

/-- JavaScript `String.prototype.trim`: strip whitespace from both ends
(written with structural list recursion so that it evaluates). -/
def jsTrim (s : String) : String :=
  String.mk
    (((s.data.dropWhile Char.isWhitespace).reverse.dropWhile
        Char.isWhitespace).reverse)

/-- JavaScript truthiness of an optional string field: present and non-empty. -/
def strTruthy : Option String → Bool
  | none => false
  | some s => s != ""

/-- JavaScript `s.charAt(0).toUpperCase() + s.slice(1)`. -/
def capitalizeFirst (s : String) : String :=
  match s.data with
  | [] => ""
  | c :: cs => String.mk (c.toUpper :: cs)

/-- The agent-step record pushed by the handler for a stage event:
`{ agent: agentName + ' Agent', action: data.text || (data.status ===
'thinking' ? 'Thinking...' : 'Finished step') }`. -/
def mkAgentStep (d : EventData) : AgentStep :=
  { agent := capitalizeFirst (d.agent.getD "") ++ " Agent"
    action :=
      if strTruthy d.text then d.text.getD ""
      else if d.status = some "thinking" then "Thinking..."
      else "Finished step" }

/-- The client-side state observed by one chat stream opened in
`ChatScreen.handleSend`: the transcript, the two React streaming state hooks,
the local `fullResponse` and `agentSteps` variables of the closure, and
whether `eventSource.close()` has been called (after which the browser
dispatches no further `onmessage`). -/
structure ChatStreamState where
  messages : List ChatMessage
  isStreaming : Bool
  currentStreamingMessage : String
  fullResponse : String
  agentSteps : List AgentStep
  closed : Bool
  deriving DecidableEq, Repr

/-- The body of the `try` block of `eventSource.onmessage` after a successful
`JSON.parse`: dispatch on `data.agent` (truthy) and else `data.final`
(truthy).  `now` stands for the clock readings (`Date.now()`,
`new Date().toISOString()`). -/
def processEvent (now : String) (s : ChatStreamState) (d : EventData) : ChatStreamState :=
  if strTruthy d.agent then
    let s1 :=
      if d.status = some "done" ∧ strTruthy d.text then
        { s with fullResponse := d.text.getD ""
                 currentStreamingMessage := d.text.getD "" }
      else s
    { s1 with agentSteps := s1.agentSteps ++ [mkAgentStep d] }
  else if strTruthy d.final then
    let answer := d.final.getD ""
    let finalQueryId :=
      if strTruthy d.query_id then d.query_id.getD "" else "q_" ++ now
    { s with
      fullResponse := answer
      messages := s.messages ++
        [{ id := finalQueryId
           role := .ai
           content := answer
           timestamp := now
           thoughtExpanded := some false
           agentSteps := some s.agentSteps
           safety_verified := d.safety_verified }]
      currentStreamingMessage := ""
      isStreaming := false
      closed := true }
  else s

/-- One `onmessage` dispatch of the handler.  A received message is its raw
`event.data` string paired with the outcome of `JSON.parse` on it (supplied by
the environment; `none` means the parse throws and the `catch` only logs).
The string `"[DONE]"` is compared before any parsing. -/
def handleMessage (now : String) (s : ChatStreamState)
    (m : String × Option EventData) : ChatStreamState :=
  if m.1 = "[DONE]" then
    { s with closed := true, isStreaming := false }
  else
    match m.2 with
    | none => s
    | some d => processEvent now s d

/-- One delivered event: after `eventSource.close()` the browser dispatches no
further `onmessage`, so a closed stream ignores the message. -/
def streamStep (now : String) (s : ChatStreamState)
    (m : String × Option EventData) : ChatStreamState :=
  if s.closed then s else handleMessage now s m

/-- Deliver a whole list of messages to the stream handler in order. -/
def runStream (now : String) (s : ChatStreamState)
    (ms : List (String × Option EventData)) : ChatStreamState :=
  ms.foldl (streamStep now) s

/-- The `eventSource.onerror` handler of `ChatScreen.handleSend`:
`setIsStreaming(false); setCurrentStreamingMessage(''); eventSource.close()`. -/
def onStreamError (s : ChatStreamState) : ChatStreamState :=
  { s with isStreaming := false, currentStreamingMessage := "", closed := true }

/-- The component state read and written by the synchronous prefix of
`ChatScreen.handleSend` before any stream event arrives. -/
structure ChatUiState where
  inputValue : String
  student : Option StudentProfile
  isStreaming : Bool
  messages : List ChatMessage
  currentStreamingMessage : String
  deriving DecidableEq, Repr

/-- `ChatScreen.handleSend` up to the call of `api.createChatStream`: the
guard `if (!inputValue.trim() || !student || isStreaming) return;`, then the
input is cleared, the user message appended, streaming started, and a channel
opened with the trimmed query and the student id.  The second component is the
`(query, studentId)` pair passed to `createChatStream` (`none` when no channel
is opened).  `now` stands for the clock readings. -/
def handleSend (now : String) (s : ChatUiState) :
    ChatUiState × Option (String × String) :=
  match s.student with
  | none => (s, none)
  | some st =>
    if jsTrim s.inputValue = "" ∨ s.isStreaming then (s, none)
    else
      let query := jsTrim s.inputValue
      let userMessage : ChatMessage :=
        { id := "user-" ++ now
          role := .user
          content := query
          timestamp := now
          thoughtExpanded := none
          agentSteps := none
          safety_verified := none }
      ({ s with
          inputValue := ""
          messages := s.messages ++ [userMessage]
          isStreaming := true
          currentStreamingMessage := "" },
        some (query, st.student_id))

/-- The challenge object of `api.generateDynamicChallenge`
(`ChallengeResponse` in src/api/client.ts). -/
structure Challenge where
  question : String
  options : List String
  correct : String
  explanation : String
  trait : String
  deriving DecidableEq, Repr

/-- The feedback union `'correct' | 'wrong'` of `GameScreen`. -/
inductive Feedback where
  | correct
  | wrong
  deriving DecidableEq, Repr

/-- The component state of `GameScreen` relevant to answering: the fetched
challenge, the round counter, the transient feedback flag, and whether
`onComplete` has fired. -/
structure GameUiState where
  currentChallenge : Option Challenge
  challengeCount : Nat
  feedback : Option Feedback
  completed : Bool
  deriving DecidableEq, Repr

/-- The payload of `api.submitGameResult` built in `GameScreen.handleAnswer`
(fields other than the ones fixed by the call site are omitted). -/
structure GameSubmission where
  game_type : String
  score : Nat
  is_dynamic : Bool
  deriving DecidableEq, Repr

/-- `GameScreen.handleAnswer`, settled after its `setTimeout` callbacks and
the challenge refetch triggered by bumping `challengeCount` have resolved:
the guard `if (!currentChallenge || feedback) return;`, the grading
`selectedOption === currentChallenge.correct`, the result submission (only
performed when a student is logged in, with `score: 100` and
`game_type: currentChallenge.trait || 'dynamic'`), and the round advance.
`nextChallenge` is the challenge the triggered `fetchNewChallenge` will
install; the second component is the submission sent to the backend. -/
def handleAnswer (hasStudent : Bool) (nextChallenge : Option Challenge)
    (s : GameUiState) (selectedOption : String) :
    GameUiState × Option GameSubmission :=
  match s.currentChallenge with
  | none => (s, none)
  | some c =>
    if s.feedback.isSome then (s, none)
    else if selectedOption = c.correct then
      let submission :=
        if hasStudent then
          some { game_type := if c.trait = "" then "dynamic" else c.trait
                 score := 100
                 is_dynamic := true }
        else none
      if s.challengeCount < 2 then
        ({ s with
            currentChallenge := nextChallenge
            challengeCount := s.challengeCount + 1
            feedback := none },
          submission)
      else
        ({ s with feedback := none, completed := true }, submission)
    else
      ({ s with feedback := none }, none)

/-- The fields of a browser `File` object read by
`UploadScreen.handleFileUpload`. -/
structure FileInfo where
  mimeType : String
  size : Nat
  deriving DecidableEq, Repr

/-- The upload-related component and store state of `UploadScreen`. -/
structure UploadUiState where
  isUploading : Bool
  uploadProgress : Int
  uploadComplete : Bool
  chunksIndexed : Nat
  deriving DecidableEq, Repr

/-- The request `api.uploadTextbook(file, student.student_id, subject,
student.grade)` issues when the upload proceeds. -/
structure UploadRequest where
  student_id : String
  subject : String
  grade : Int
  deriving DecidableEq, Repr

/-- `UploadScreen.handleFileUpload` up to the `await api.uploadTextbook` call:
the three guards (no student profile, `file.type !== 'application/pdf'`,
`file.size > 50 * 1024 * 1024`) each return after only a toast, otherwise
`setIsUploading(true); setUploadProgress(0)` run and the upload request is
issued.  The second component is the issued request (`none` when rejected). -/
def handleFileUpload (student : Option StudentProfile) (subject : String)
    (file : FileInfo) (u : UploadUiState) :
    UploadUiState × Option UploadRequest :=
  match student with
  | none => (u, none)
  | some st =>
    if file.mimeType ≠ "application/pdf" then (u, none)
    else if file.size > 50 * 1024 * 1024 then (u, none)
    else
      ({ u with isUploading := true, uploadProgress := 0 },
        some { student_id := st.student_id, subject := subject, grade := st.grade })

/-- A retrieved context chunk (`ContextChunk` of the spec data model): a text
span, a relevance score, and an identifier. -/
structure ContextChunk where
  text : String
  score : Int
  chunkId : String
  deriving DecidableEq, Repr

/-- The fixed stage list of the staged response pipeline. -/
inductive StageName where
  | explain
  | simplify
  | encourage
  deriving DecidableEq, Repr

/-- The status of a stage update: `in_progress` or `done`. -/
inductive StageStatus where
  | inProgress
  | done
  deriving DecidableEq, Repr

/-- A pipeline event: a StageUpdate, the FinalAnswer (correlation id, answer
text, stage history, safety flag), or the end-of-stream sentinel. -/
inductive PipelineEvent where
  | stageUpdate (stage : StageName) (status : StageStatus) (output : Option String)
  | finalAnswer (queryId : String) (text : String)
      (history : List (StageName × String)) (safety : Bool)
  | endSentinel
  deriving DecidableEq, Repr

/-- Modelled from the spec: the inner loop of the backend staged response
pipeline (`routers/chat.py` / `core/agents.py`, which are not among the
repository sources).  For each stage in order it emits a StageUpdate
`in_progress` immediately before invoking the stage, invokes the stage as a
pure function of the previous output and the context, and emits a StageUpdate
`done` carrying the stage output immediately after.  Returns the last output,
the emitted events, and the stage history. -/
def runStages (stageFn : StageName → String → List ContextChunk → String)
    (ctx : List ContextChunk) :
    String → List StageName →
      String × List PipelineEvent × List (StageName × String)
  | input, [] => (input, [], [])
  | input, st :: rest =>
    let out := stageFn st input ctx
    let (fin, evs, hist) := runStages stageFn ctx out rest
    (fin,
      .stageUpdate st .inProgress none :: .stageUpdate st .done (some out) :: evs,
      (st, out) :: hist)

/-- The fixed stage order Explain, Simplify, Encourage. -/
def stageOrder : List StageName := [.explain, .simplify, .encourage]

/-- Modelled from the spec: the full staged response pipeline for a valid
query (`routers/chat.py` / `core/agents.py`, which are not among the
repository sources).  Runs the three stages in the fixed order, then emits
one FinalAnswer carrying the last stage output, the stage history, and the
safety flag produced by the external content check, then the end sentinel. -/
def runPipeline (queryId query : String) (ctx : List ContextChunk)
    (stageFn : StageName → String → List ContextChunk → String)
    (safetyCheck : String → Bool) : List PipelineEvent :=
  let (fin, evs, hist) := runStages stageFn ctx query stageOrder
  evs ++ [.finalAnswer queryId fin hist (safetyCheck fin), .endSentinel]

/-- A raw SSE message that parses to a stage event: its data string is not the
sentinel and the parsed payload has a truthy `agent` field (the handler
dispatches to the agent branch before ever looking at `final`). -/
def isStageEvent (p : String × EventData) : Prop :=
  p.1 ≠ "[DONE]" ∧ strTruthy p.2.agent = true

instance (p : String × EventData) : Decidable (isStageEvent p) := by
  unfold isStageEvent; infer_instance

/-- Pair a pre-parsed message with its raw string for delivery to the
handler. -/
def asRaw (p : String × EventData) : String × Option EventData :=
  (p.1, some p.2)

/-- Relation stating the claim that a transcript entry is changed in no field
except, when its id matches, the `thoughtExpanded` display flag (which is then
negated, an absent flag reading as false). -/
def toggleOnly (messageId : String) (old nw : ChatMessage) : Prop :=
  nw.id = old.id ∧ nw.role = old.role ∧ nw.content = old.content
  ∧ nw.timestamp = old.timestamp ∧ nw.agentSteps = old.agentSteps
  ∧ nw.safety_verified = old.safety_verified
  ∧ (old.id ≠ messageId → nw.thoughtExpanded = old.thoughtExpanded)
  ∧ (old.id = messageId →
      nw.thoughtExpanded = some (!(old.thoughtExpanded.getD false)))

theorem runStream_closed (now : String) (s : ChatStreamState)
    (ms : List (String × Option EventData)) (h : s.closed = true) :
    runStream now s ms = s := by
  induction ms with
  | nil => rfl
  | cons m rest ih =>
    have hs : streamStep now s m = s := by simp [streamStep, h]
    show List.foldl (streamStep now) s (m :: rest) = s
    rw [List.foldl_cons, hs]
    exact ih

theorem processEvent_stage (now : String) (s : ChatStreamState) (d : EventData)
    (ha : strTruthy d.agent = true) :
    (processEvent now s d).messages = s.messages
    ∧ (processEvent now s d).isStreaming = s.isStreaming
    ∧ (processEvent now s d).closed = s.closed
    ∧ (processEvent now s d).agentSteps = s.agentSteps ++ [mkAgentStep d] := by
  unfold processEvent
  by_cases hc : d.status = some "done" ∧ strTruthy d.text
  · simp [ha, hc]
  · simp [ha, hc]

theorem runStream_stage_prefix (now : String) (s : ChatStreamState)
    (pre : List (String × EventData))
    (h : s.closed = false) (hpre : ∀ p ∈ pre, isStageEvent p) :
    (runStream now s (pre.map asRaw)).messages = s.messages
    ∧ (runStream now s (pre.map asRaw)).isStreaming = s.isStreaming
    ∧ (runStream now s (pre.map asRaw)).closed = false
    ∧ (runStream now s (pre.map asRaw)).agentSteps
        = s.agentSteps ++ pre.map (fun p => mkAgentStep p.2) := by
  induction pre generalizing s with
  | nil => refine ⟨rfl, rfl, h, by simp [runStream]⟩
  | cons p rest ih =>
    obtain ⟨hd, ha⟩ := hpre p (List.mem_cons_self p rest)
    have hstep : streamStep now s (asRaw p) = processEvent now s p.2 := by
      simp [streamStep, handleMessage, asRaw, h, hd]
    obtain ⟨hm, hst, hcl, hag⟩ := processEvent_stage now s p.2 ha
    have hrest : ∀ q ∈ rest, isStageEvent q := fun q hq =>
      hpre q (List.mem_cons_of_mem p hq)
    have hcl2 : (processEvent now s p.2).closed = false := by rw [hcl]; exact h
    obtain ⟨ihm, ihst, ihcl, ihag⟩ := ih (processEvent now s p.2) hcl2 hrest
    have hfold :
        runStream now s ((p :: rest).map asRaw)
          = runStream now (processEvent now s p.2) (rest.map asRaw) := by
      show List.foldl (streamStep now) s (asRaw p :: rest.map asRaw)
        = List.foldl (streamStep now) (processEvent now s p.2) (rest.map asRaw)
      rw [List.foldl_cons, hstep]
    rw [hfold]
    refine ⟨by rw [ihm, hm], by rw [ihst, hst], ihcl, ?_⟩
    rw [ihag, hag, List.append_assoc]
    simp

/-- Claim C9: `toggleTheme` maps dark to light and light to dark, changes no
other store field, and applying it twice restores the original theme. -/
theorem toggleTheme_involution (s : AppState) :
    ((s.theme = Theme.dark → (toggleTheme s).theme = Theme.light)
      ∧ (s.theme = Theme.light → (toggleTheme s).theme = Theme.dark))
    ∧ (toggleTheme s).student = s.student
    ∧ (toggleTheme s).messages = s.messages
    ∧ (toggleTheme s).isLoading = s.isLoading
    ∧ (toggleTheme s).currentScreen = s.currentScreen
    ∧ (toggleTheme s).isUploading = s.isUploading
    ∧ (toggleTheme s).uploadProgress = s.uploadProgress
    ∧ (toggleTheme (toggleTheme s)).theme = s.theme := by
  rcases s with ⟨st, ms, il, cs, iu, up, th⟩
  cases th <;> simp [toggleTheme]

theorem toggleTheme_involution_witness :
    (toggleTheme ⟨none, [], false, Screen.welcome, false, 0, Theme.dark⟩).theme
        = Theme.light
    ∧ (toggleTheme (toggleTheme
          ⟨none, [], false, Screen.welcome, false, 0, Theme.dark⟩)).theme
        = Theme.dark := by
  have h := toggleTheme_involution ⟨none, [], false, Screen.welcome, false, 0, Theme.dark⟩
  exact ⟨h.1.1 rfl, h.2.2.2.2.2.2.2⟩

/-- Claim C10: with a logged-in student, `addXp n` increases the xp field by
exactly `n` and leaves every other profile field and every other store field
unchanged; with no student, the state is unchanged. -/
theorem addXp_frame (s : AppState) (st : StudentProfile) (n : Int) :
    (s.student = some st →
      ∃ st2, (addXp n s).student = some st2
        ∧ st2.xp = st.xp + n
        ∧ st2.student_id = st.student_id
        ∧ st2.name = st.name
        ∧ st2.grade = st.grade
        ∧ st2.subject = st.subject
        ∧ st2.iq_scores = st.iq_scores
        ∧ st2.eq_scores = st.eq_scores
        ∧ st2.learning_style = st.learning_style
        ∧ st2.textbook_id = st.textbook_id)
    ∧ (s.student = none → addXp n s = s)
    ∧ (addXp n s).messages = s.messages
    ∧ (addXp n s).isLoading = s.isLoading
    ∧ (addXp n s).currentScreen = s.currentScreen
    ∧ (addXp n s).isUploading = s.isUploading
    ∧ (addXp n s).uploadProgress = s.uploadProgress
    ∧ (addXp n s).theme = s.theme := by
  rcases s with ⟨stu, ms, il, cs, iu, up, th⟩
  refine ⟨?_, ?_, rfl, rfl, rfl, rfl, rfl, rfl⟩
  · intro h
    simp only at h
    subst h
    exact ⟨{ st with xp := st.xp + n }, by simp [addXp], rfl, rfl, rfl, rfl,
      rfl, rfl, rfl, rfl, rfl⟩
  · intro h
    simp only at h
    subst h
    rfl

theorem addXp_frame_witness :
    ∃ st2,
      (addXp 15 ⟨some ⟨"s1", "Asha", 3, Subject.science, [], [], "visual", 10, none⟩,
          [], false, Screen.game, false, 0, Theme.dark⟩).student = some st2
      ∧ st2.xp = 25 := by
  obtain ⟨st2, h1, h2, -⟩ :=
    (addXp_frame
      ⟨some ⟨"s1", "Asha", 3, Subject.science, [], [], "visual", 10, none⟩,
        [], false, Screen.game, false, 0, Theme.dark⟩
      ⟨"s1", "Asha", 3, Subject.science, [], [], "visual", 10, none⟩ 15).1 rfl
  exact ⟨st2, h1, h2⟩

/-- Claim C8: a file whose MIME type is not application/pdf or whose size
exceeds 50 MiB, or a state with no logged-in student, leads to no upload
request and an unchanged upload state. -/
theorem handleFileUpload_rejects (student : Option StudentProfile)
    (subject : String) (file : FileInfo) (u : UploadUiState)
    (h : file.mimeType ≠ "application/pdf"
      ∨ file.size > 50 * 1024 * 1024
      ∨ student = none) :
    handleFileUpload student subject file u = (u, none) := by
  cases student with
  | none => rfl
  | some st =>
    rcases h with h | h | h
    · simp [handleFileUpload, h]
    · by_cases hm : file.mimeType = "application/pdf"
      · simp [handleFileUpload, hm, h]
      · simp [handleFileUpload, hm]
    · cases h

theorem handleFileUpload_rejects_witness :
    handleFileUpload
      (some ⟨"s1", "Asha", 3, Subject.science, [], [], "visual", 0, none⟩)
      "Science" ⟨"text/plain", 10⟩ ⟨false, 0, false, 0⟩
      = (⟨false, 0, false, 0⟩, none) :=
  handleFileUpload_rejects _ _ _ _ (Or.inl (by decide))

/-- Claim C5: `handleSend` opens no channel and changes nothing when the
trimmed input is empty, no student is logged in, or a stream is already in
progress; when it proceeds, the query passed to `createChatStream` is the
trimmed input text. -/
theorem handleSend_guard (now : String) (s : ChatUiState) :
    ((jsTrim s.inputValue = "" ∨ s.student = none ∨ s.isStreaming = true) →
      handleSend now s = (s, none))
    ∧ (∀ st, s.student = some st → jsTrim s.inputValue ≠ "" →
        s.isStreaming = false →
        (handleSend now s).2 = some (jsTrim s.inputValue, st.student_id)) := by
  constructor
  · intro h
    cases hs : s.student with
    | none => simp [handleSend, hs]
    | some st =>
      rcases h with h | h | h
      · simp [handleSend, hs, h]
      · rw [hs] at h; cases h
      · simp [handleSend, hs, h]
  · intro st hst hne hstr
    simp [handleSend, hst, hne, hstr]

theorem handleSend_guard_witness :
    handleSend "t0"
        ⟨"   ", some ⟨"s1", "Asha", 3, Subject.science, [], [], "visual", 0, none⟩,
          false, [], ""⟩
      = (⟨"   ", some ⟨"s1", "Asha", 3, Subject.science, [], [], "visual", 0, none⟩,
          false, [], ""⟩, none)
    ∧ (handleSend "t0"
        ⟨" hi there ", some ⟨"s1", "Asha", 3, Subject.science, [], [], "visual", 0, none⟩,
          false, [], ""⟩).2 = some ("hi there", "s1") := by
  constructor
  · exact (handleSend_guard "t0" _).1 (Or.inl (by decide))
  · have h := (handleSend_guard "t0"
      ⟨" hi there ", some ⟨"s1", "Asha", 3, Subject.science, [], [], "visual", 0, none⟩,
        false, [], ""⟩).2
      ⟨"s1", "Asha", 3, Subject.science, [], [], "visual", 0, none⟩ rfl (by decide) rfl
    rw [h]
    decide

/-- Claim C1 (modelled from the spec, the backend pipeline sources being
absent): for every valid query with non-empty context the pipeline emits
exactly the three in_progress/done pairs in the order Explain, Simplify,
Encourage, each done update carrying the output of the stage just run on its
predecessor's output, followed by exactly one FinalAnswer and the end
sentinel. -/
theorem pipeline_staged_order (queryId query : String) (ctx : List ContextChunk)
    (stageFn : StageName → String → List ContextChunk → String)
    (safetyCheck : String → Bool) (h : ctx ≠ []) :
    runPipeline queryId query ctx stageFn safetyCheck =
      [.stageUpdate .explain .inProgress none,
       .stageUpdate .explain .done (some (stageFn .explain query ctx)),
       .stageUpdate .simplify .inProgress none,
       .stageUpdate .simplify .done
         (some (stageFn .simplify (stageFn .explain query ctx) ctx)),
       .stageUpdate .encourage .inProgress none,
       .stageUpdate .encourage .done
         (some (stageFn .encourage
           (stageFn .simplify (stageFn .explain query ctx) ctx) ctx)),
       .finalAnswer queryId
         (stageFn .encourage (stageFn .simplify (stageFn .explain query ctx) ctx) ctx)
         [(.explain, stageFn .explain query ctx),
          (.simplify, stageFn .simplify (stageFn .explain query ctx) ctx),
          (.encourage, stageFn .encourage
            (stageFn .simplify (stageFn .explain query ctx) ctx) ctx)]
         (safetyCheck (stageFn .encourage
           (stageFn .simplify (stageFn .explain query ctx) ctx) ctx)),
       .endSentinel] := by
  rfl

theorem pipeline_staged_order_witness :
    runPipeline "q1" "What is evaporation?" [⟨"Evaporation is water turning to vapor.", 9, "c1"⟩]
        (fun st input _ =>
          match st with
          | .explain => "E:" ++ input
          | .simplify => "S:" ++ input
          | .encourage => "M:" ++ input)
        (fun _ => true)
      = [.stageUpdate .explain .inProgress none,
         .stageUpdate .explain .done (some "E:What is evaporation?"),
         .stageUpdate .simplify .inProgress none,
         .stageUpdate .simplify .done (some "S:E:What is evaporation?"),
         .stageUpdate .encourage .inProgress none,
         .stageUpdate .encourage .done (some "M:S:E:What is evaporation?"),
         .finalAnswer "q1" "M:S:E:What is evaporation?"
           [(.explain, "E:What is evaporation?"),
            (.simplify, "S:E:What is evaporation?"),
            (.encourage, "M:S:E:What is evaporation?")]
           true,
         .endSentinel] := by
  rw [pipeline_staged_order _ _ _ _ _ (by decide)]
  rfl

/-- Claim C6: `addMessage` appends and changes no existing entry;
`toggleThought` preserves length and order and touches only the matching
message's `thoughtExpanded` flag; no other store operation modifies any field
of an existing transcript entry (the operations either keep the list or clear
it wholesale). -/
theorem transcript_append_only (s : AppState) (m : ChatMessage) (mid : String)
    (p : StudentProfile) (b : Bool) (sc : Screen) (pr : Int ⊕ (Int → Int))
    (n : Int) :
    (addMessage m s).messages = s.messages ++ [m]
    ∧ List.Forall₂ (toggleOnly mid) s.messages (toggleThought mid s).messages
    ∧ (setStudent p s).messages = s.messages
    ∧ (setIsLoading b s).messages = s.messages
    ∧ (setCurrentScreen sc s).messages = s.messages
    ∧ (setIsUploading b s).messages = s.messages
    ∧ (setUploadProgress pr s).messages = s.messages
    ∧ (addXp n s).messages = s.messages
    ∧ (toggleTheme s).messages = s.messages
    ∧ (clearMessages s).messages = []
    ∧ (reset s).messages = [] := by
  refine ⟨rfl, ?_, rfl, rfl, rfl, rfl, rfl, rfl, rfl, rfl, rfl⟩
  rw [show (toggleThought mid s).messages
      = s.messages.map (fun msg =>
          if msg.id = mid then
            { msg with thoughtExpanded := some (!(msg.thoughtExpanded.getD false)) }
          else msg) from rfl]
  rw [List.forall₂_map_right_iff]
  rw [List.forall₂_same]
  intro msg _
  by_cases hid : msg.id = mid
  · simp [toggleOnly, hid]
  · simp [toggleOnly, hid]

theorem transcript_append_only_witness :
    (addMessage ⟨"m1", .ai, "hello", "t0", some false, none, some true⟩
        ⟨none, [], false, Screen.chat, false, 0, Theme.dark⟩).messages
      = [⟨"m1", .ai, "hello", "t0", some false, none, some true⟩] :=
  (transcript_append_only ⟨none, [], false, Screen.chat, false, 0, Theme.dark⟩
    ⟨"m1", .ai, "hello", "t0", some false, none, some true⟩ "m1"
    ⟨"s1", "Asha", 3, Subject.science, [], [], "visual", 0, none⟩
    false Screen.chat (Sum.inl 0) 0).1

/-- Claim C7 counterexample: after a wrong answer is graded (`feedback` was
set and has settled back), the same challenge is still installed and can be
answered again, even yielding a second grading and submission for the same
challenge — so a challenge is not consumed exactly once nor discarded after
grading. -/
theorem challenge_consumed_once_counterexample :
    (handleAnswer true none
        ⟨some ⟨"2+2?", ["4", "5"], "4", "", "iq"⟩, 0, none, false⟩ "5").1.currentChallenge
      = some ⟨"2+2?", ["4", "5"], "4", "", "iq"⟩
    ∧ (handleAnswer true none
        ⟨some ⟨"2+2?", ["4", "5"], "4", "", "iq"⟩, 0, none, false⟩ "5").1.feedback
      = none
    ∧ (handleAnswer true none
        (handleAnswer true none
          ⟨some ⟨"2+2?", ["4", "5"], "4", "", "iq"⟩, 0, none, false⟩ "5").1 "4").2
      = some ⟨"iq", 100, true⟩ := by
  decide

/-- Claim C7 (amended): an answer is judged correct iff it string-equals the
designated correct option; a submission (score 100) is sent exactly when the
answer is correct and a student is logged in; a correct answer discards the
challenge by advancing to a fresh one or completing the round sequence, while
a wrong answer retains the same challenge for re-answering with the feedback
flag cleared. -/
theorem handleAnswer_amended (hasStudent : Bool) (next : Option Challenge)
    (s : GameUiState) (c : Challenge) (o : String)
    (hc : s.currentChallenge = some c) (hf : s.feedback = none) :
    ((handleAnswer hasStudent next s o).2.isSome
        ↔ (o = c.correct ∧ hasStudent = true))
    ∧ (o = c.correct → hasStudent = true →
        (handleAnswer hasStudent next s o).2
          = some { game_type := if c.trait = "" then "dynamic" else c.trait
                   score := 100
                   is_dynamic := true })
    ∧ (o = c.correct → s.challengeCount < 2 →
        (handleAnswer hasStudent next s o).1.currentChallenge = next
        ∧ (handleAnswer hasStudent next s o).1.challengeCount
            = s.challengeCount + 1
        ∧ (handleAnswer hasStudent next s o).1.feedback = none)
    ∧ (o = c.correct → ¬s.challengeCount < 2 →
        (handleAnswer hasStudent next s o).1.completed = true)
    ∧ (o ≠ c.correct →
        (handleAnswer hasStudent next s o).2 = none
        ∧ (handleAnswer hasStudent next s o).1.currentChallenge
            = s.currentChallenge
        ∧ (handleAnswer hasStudent next s o).1.feedback = none) := by
  by_cases ho : o = c.correct
  · by_cases hn : s.challengeCount < 2
    · cases hasStudent <;> simp [handleAnswer, hc, hf, ho, hn]
    · cases hasStudent <;> simp [handleAnswer, hc, hf, ho, hn]
  · simp [handleAnswer, hc, hf, ho]

theorem handleAnswer_amended_witness :
    (handleAnswer true (some ⟨"next?", ["a"], "a", "", "eq"⟩)
        ⟨some ⟨"2+2?", ["4", "5"], "4", "", "iq"⟩, 0, none, false⟩ "4").2
      = some ⟨"iq", 100, true⟩
    ∧ (handleAnswer true (some ⟨"next?", ["a"], "a", "", "eq"⟩)
        ⟨some ⟨"2+2?", ["4", "5"], "4", "", "iq"⟩, 0, none, false⟩ "4").1.currentChallenge
      = some ⟨"next?", ["a"], "a", "", "eq"⟩ := by
  have h := handleAnswer_amended true (some ⟨"next?", ["a"], "a", "", "eq"⟩)
    ⟨some ⟨"2+2?", ["4", "5"], "4", "", "iq"⟩, 0, none, false⟩
    ⟨"2+2?", ["4", "5"], "4", "", "iq"⟩ "4" rfl rfl
  refine ⟨?_, (h.2.2.1 rfl (by decide)).1⟩
  have h2 := h.2.1 rfl rfl
  rw [h2]
  decide

/-- Claim C3: the handler treats exactly the raw token `[DONE]` as the
end-of-stream sentinel: on it the channel closes and the streaming flag
clears without the payload ever being consulted (the outcome is the same for
every parse result), and any other message is dispatched to the JSON-parse
path instead. -/
theorem chat_stream_sentinel (now : String) (s : ChatStreamState)
    (p q : Option EventData) (m : String × Option EventData)
    (h : s.closed = false) :
    streamStep now s ("[DONE]", p)
        = { s with closed := true, isStreaming := false }
    ∧ streamStep now s ("[DONE]", p) = streamStep now s ("[DONE]", q)
    ∧ (m.1 ≠ "[DONE]" →
        streamStep now s m =
          match m.2 with
          | none => s
          | some d => processEvent now s d) := by
  refine ⟨?_, ?_, ?_⟩
  · simp [streamStep, handleMessage, h]
  · simp [streamStep, handleMessage, h]
  · intro hm
    simp [streamStep, handleMessage, h, hm]

theorem chat_stream_sentinel_witness :
    streamStep "t" ⟨[], true, "partial", "", [], false⟩ ("[DONE]", none)
      = ⟨[], false, "partial", "", [], true⟩ :=
  (chat_stream_sentinel "t" ⟨[], true, "partial", "", [], false⟩
    none none ("x", none) rfl).1

/-- Claim C4: when the stream errors after any prefix of stage events and
before the sentinel, the error handler closes the channel, resets the
streaming flag, and discards the interim text, and no AI message has been
appended from the interrupted stream. -/
theorem chat_stream_error_failed (now : String) (s0 : ChatStreamState)
    (pre : List (String × EventData))
    (h0 : s0.closed = false) (hpre : ∀ p ∈ pre, isStageEvent p) :
    (onStreamError (runStream now s0 (pre.map asRaw))).messages = s0.messages
    ∧ (onStreamError (runStream now s0 (pre.map asRaw))).isStreaming = false
    ∧ (onStreamError (runStream now s0 (pre.map asRaw))).currentStreamingMessage
        = ""
    ∧ (onStreamError (runStream now s0 (pre.map asRaw))).closed = true := by
  obtain ⟨hm, -, -, -⟩ := runStream_stage_prefix now s0 pre h0 hpre
  exact ⟨hm, rfl, rfl, rfl⟩

theorem chat_stream_error_failed_witness :
    (onStreamError (runStream "t" ⟨[], true, "", "", [], false⟩
        ([("m1", ⟨some "explainer", some "thinking", none, none, none, none⟩)].map
          asRaw))).messages = []
    ∧ (onStreamError (runStream "t" ⟨[], true, "", "", [], false⟩
        ([("m1", ⟨some "explainer", some "thinking", none, none, none, none⟩)].map
          asRaw))).isStreaming = false := by
  have h := chat_stream_error_failed "t" ⟨[], true, "", "", [], false⟩
    [("m1", ⟨some "explainer", some "thinking", none, none, none, none⟩)]
    rfl (by decide)
  exact ⟨h.1, h.2.1⟩

theorem runStream_split_final (now : String) (s0 : ChatStreamState)
    (A : List (String × Option EventData))
    (post : List (String × Option EventData)) (x : String × Option EventData) :
    runStream now s0 (A ++ x :: post)
      = runStream now (runStream now s0 (A ++ [x])) post := by
  show List.foldl (streamStep now) s0 (A ++ x :: post)
    = List.foldl (streamStep now) (List.foldl (streamStep now) s0 (A ++ [x])) post
  rw [show A ++ x :: post = (A ++ [x]) ++ post by simp]
  rw [List.foldl_append]

/-- Claim C2: delivering any prefix of stage events, then a final event, then
any further messages, appends exactly one AI message whose content is the
final text, whose agent-step list is exactly one record per stage event in
arrival order, and whose safety flag is the event's `safety_verified`; the
interim text is cleared, streaming stops, the channel closes, and nothing
after the final event is processed. -/
theorem chat_stream_final_event (now : String) (s0 : ChatStreamState)
    (pre : List (String × EventData)) (post : List (String × Option EventData))
    (sf : String) (d : EventData)
    (h0 : s0.closed = false) (hsteps : s0.agentSteps = [])
    (hpre : ∀ p ∈ pre, isStageEvent p)
    (hsf : sf ≠ "[DONE]")
    (hagent : strTruthy d.agent = false) (hfinal : strTruthy d.final = true) :
    runStream now s0 (pre.map asRaw ++ (sf, some d) :: post)
      = runStream now s0 (pre.map asRaw ++ [(sf, some d)])
    ∧ (runStream now s0 (pre.map asRaw ++ (sf, some d) :: post)).messages
        = s0.messages ++
          [{ id := if strTruthy d.query_id then d.query_id.getD ""
                   else "q_" ++ now
             role := .ai
             content := d.final.getD ""
             timestamp := now
             thoughtExpanded := some false
             agentSteps := some (pre.map fun p => mkAgentStep p.2)
             safety_verified := d.safety_verified }]
    ∧ (runStream now s0
        (pre.map asRaw ++ (sf, some d) :: post)).currentStreamingMessage = ""
    ∧ (runStream now s0 (pre.map asRaw ++ (sf, some d) :: post)).isStreaming
        = false
    ∧ (runStream now s0 (pre.map asRaw ++ (sf, some d) :: post)).closed
        = true := by
  obtain ⟨hm, hst, hcl, hag⟩ := runStream_stage_prefix now s0 pre h0 hpre
  have hfstep : streamStep now (runStream now s0 (pre.map asRaw)) (sf, some d)
      = processEvent now (runStream now s0 (pre.map asRaw)) d := by
    simp [streamStep, hcl, handleMessage, hsf]
  have hshort : runStream now s0 (pre.map asRaw ++ [(sf, some d)])
      = processEvent now (runStream now s0 (pre.map asRaw)) d := by
    show List.foldl (streamStep now) s0 (pre.map asRaw ++ [(sf, some d)]) = _
    rw [List.foldl_append, List.foldl_cons, List.foldl_nil]
    exact hfstep
  have hproc : processEvent now (runStream now s0 (pre.map asRaw)) d
      = { runStream now s0 (pre.map asRaw) with
          fullResponse := d.final.getD ""
          messages := (runStream now s0 (pre.map asRaw)).messages ++
            [{ id := if strTruthy d.query_id then d.query_id.getD ""
                     else "q_" ++ now
               role := .ai
               content := d.final.getD ""
               timestamp := now
               thoughtExpanded := some false
               agentSteps := some (runStream now s0 (pre.map asRaw)).agentSteps
               safety_verified := d.safety_verified }]
          currentStreamingMessage := ""
          isStreaming := false
          closed := true } := by
    unfold processEvent
    simp [hagent, hfinal]
  have hclosed2 : (runStream now s0 (pre.map asRaw ++ [(sf, some d)])).closed
      = true := by
    rw [hshort, hproc]
  have hcut : runStream now s0 (pre.map asRaw ++ (sf, some d) :: post)
      = runStream now s0 (pre.map asRaw ++ [(sf, some d)]) := by
    rw [runStream_split_final, runStream_closed _ _ _ hclosed2]
  refine ⟨hcut, ?_, ?_, ?_, ?_⟩
  · rw [hcut, hshort, hproc]
    show (runStream now s0 (pre.map asRaw)).messages ++ _ = _
    rw [hm, hag, hsteps]
    simp
  · rw [hcut, hshort, hproc]
  · rw [hcut, hshort, hproc]
  · rw [hcut, hshort, hproc]

theorem chat_stream_final_event_witness :
    (runStream "t" ⟨[], true, "", "", [], false⟩
        ([("m1", ⟨some "explainer", some "thinking", none, none, none, none⟩),
          ("m2", ⟨some "explainer", some "done", some "Water evaporates.",
            none, none, none⟩)].map asRaw
          ++ ("f", some ⟨none, none, none, some "Great answer!", some "q1",
                some true⟩) :: [("late", none)])).messages
      = [{ id := "q1"
           role := .ai
           content := "Great answer!"
           timestamp := "t"
           thoughtExpanded := some false
           agentSteps := some
             [⟨"Explainer Agent", "Thinking..."⟩,
              ⟨"Explainer Agent", "Water evaporates."⟩]
           safety_verified := some true }] := by
  have h := chat_stream_final_event "t" ⟨[], true, "", "", [], false⟩
    [("m1", ⟨some "explainer", some "thinking", none, none, none, none⟩),
     ("m2", ⟨some "explainer", some "done", some "Water evaporates.",
       none, none, none⟩)]
    [("late", none)] "f"
    ⟨none, none, none, some "Great answer!", some "q1", some true⟩
    rfl rfl (by decide) (by decide) rfl rfl
  rw [h.2.1]
  decide
